import Mathlib

/-!
Verification of the status-bar program (main.rs, volume.rs) against its
natural-language specification.  The Rust code is shallowly embedded:
hardware and subprocess probes become explicit environment values,
fallible calls become Except or Option, a Rust panic is modelled as
Option.none, and the f64 volume arithmetic is modelled by exact rational
arithmetic with the Rust round-half-away-from-zero rule.
-/

/-- Mouse buttons as used by the click bindings in the bfmt macro calls. -/
inductive MouseButton where
  | left
  | middle
  | right
  | scrollUp
  | scrollDown
deriving DecidableEq, Repr

/-- Model of a unixbar Segment: text content, optional foreground color,
and the list of click bindings (button, registered action name). -/
structure Segment where
  text : String
  fg : Option String
  clicks : List (MouseButton × String)
deriving DecidableEq, Repr

/-- Segment produced by the source expression bfmt\x7b text[""] \x7d :
empty text, no color, no click bindings. -/
def emptySegment : Segment := { text := "", fg := none, clicks := [] }

/-- Kind of a std io Error, as tested by the Backlight closure
(e.kind() == IoErrorKind::NotFound). Every other kind behaves alike there,
so the model keeps NotFound and collapses the rest into one constructor. -/
inductive IoKind where
  | notFound
  | other
deriving DecidableEq, Repr

/-- A std io Error: its kind and its Display message. -/
structure IoError where
  kind : IoKind
  message : String
deriving DecidableEq, Repr

/-- The Backlight widget closure of main.rs (lines 340-349).  On a
successful Backlight::get it renders the brightness with color #ffff55 and
two scroll click bindings; on a NotFound error it returns the empty
segment; on any other error it returns a segment whose text is
"ERROR: " followed by the error message, with no color and no clicks.
The float formatting of the success branch is abstracted as render. -/
def backlightWidget (render : Float → String) (r : Except IoError Float) : Segment :=
  match r with
  | Except.ok brightness =>
      { text := render brightness
        fg := some "#ffff55"
        clicks := [(MouseButton.scrollUp, "bright_up"), (MouseButton.scrollDown, "bright_down")] }
  | Except.error e =>
      match e.kind with
      | IoKind.notFound => emptySegment
      | IoKind.other => { text := "ERROR: " ++ e.message, fg := none, clicks := [] }

/-- Keyboard glyph used in the ibus format string of main.rs line 216. -/
def ibusIcon : String := "⌨"

/-- The ibus Periodic closure of main.rs (lines 209-217).  The input is
the stdout of the command `ibus engine` when it ran, or none when
spawning the command failed; on failure the closure returns the empty
segment, on success it splits the output on a colon and renders the
second field, defaulting to "N/A". -/
def ibusWidget (output : Option String) : Segment :=
  match output with
  | none => emptySegment
  | some s =>
      let layout := ((s.splitOn ":").get? 1).getD "N/A"
      { text := ibusIcon ++ " " ++ layout, fg := none, clicks := [] }

/-- Rust f64::round: rounds half away from zero. Modelled on exact
rationals. -/
def roundAwayFromZero (q : ℚ) : ℤ :=
  if 0 ≤ q then ⌊q + 1 / 2⌋ else ⌈q - 1 / 2⌉

/-- volume.rs add (lines 11-28), the pure arithmetic on the mixer state.
Given the playback range [vmin, vmax] and the current volume, it computes
step = (vmax - vmin) * 0.01, rounds step * diff, adds it to the current
volume and clamps the result with new_volume.max(vmin).min(vmax); the
returned value is what set_playback_volume_all writes back.  The f64
arithmetic is modelled exactly on rationals. -/
def add (vmin vmax volume : ℤ) (diff : ℤ) : ℤ :=
  let step : ℚ := ((vmax - vmin : ℤ) : ℚ) * (1 / 100)
  let newVolume := volume + roundAwayFromZero (step * (diff : ℚ))
  min (max newVolume vmin) vmax

/-- volume.rs mute (lines 92-99), the pure update on the playback switch
value: muted is defined as the switch reading zero, and the value written
back is 1 when muted, 0 otherwise. -/
def mute (s : ℤ) : ℤ :=
  let muted := s = 0
  if muted then 1 else 0

/-- Memory orderings of std::sync::atomic. -/
inductive MemOrd where
  | relaxed
  | acquire
  | release
  | acqRel
  | seqCst
deriving DecidableEq, Repr

/-- AtomicBool::load per the documented std contract: it panics when the
ordering is Release or AcqRel, otherwise it returns the stored value.
A panic is modelled as none. -/
def atomicLoad (ord : MemOrd) (v : Bool) : Option Bool :=
  match ord with
  | MemOrd.release => none
  | MemOrd.acqRel => none
  | _ => some v

/-- AtomicBool::store per the documented std contract: it panics when the
ordering is Acquire or AcqRel, otherwise the stored value becomes the
written value.  A panic is modelled as none. -/
def atomicStore (ord : MemOrd) (newVal : Bool) (_v : Bool) : Option Bool :=
  match ord with
  | MemOrd.acquire => none
  | MemOrd.acqRel => none
  | _ => some newVal

/-- Environment of one battery poll: the outcome of the on_ac_power probe
(none when it failed), the rounded battery percentage from the
battery_life probe (none when it failed), and whether the desktop
notification sink succeeds when invoked. -/
structure BatteryEnv where
  onAcPower : Option Bool
  capacity : Option Nat
  notifShowOk : Bool
deriving Repr

/-- Battery glyphs of main.rs lines 323-334; the concrete private-use
glyph constants are opaque and irrelevant to every claim. -/
def chargingIcon : String := "charging-glyph"

def batteryGlyph (level : Nat) : String := "battery-glyph-" ++ toString level

/-- Icon and color match of main.rs lines 323-331, keyed on the rounded
capacity and the charging flag. -/
def batteryIconColor (capacity : Nat) (charging : Bool) : String × String :=
  if capacity ≤ 19 then (batteryGlyph 0, "#FF4000")
  else if capacity ≤ 39 then (batteryGlyph 1, "#FFAE00")
  else if capacity ≤ 59 then (batteryGlyph 2, "#FFF600")
  else if capacity ≤ 79 then (batteryGlyph 3, "#A8FF00")
  else if capacity ≤ 99 then (batteryGlyph 4, "#50FF00")
  else if capacity = 100 ∧ charging then ("", "#50FF00")
  else (batteryGlyph 4, "#50FF00")

/-- Segment built at the end of the battery closure (main.rs lines
332-335). -/
def batterySegment (charging : Bool) (capacity : Nat) : Segment :=
  let (icon, color) := batteryIconColor capacity charging
  { text := (if charging then chargingIcon else "") ++ icon ++ " " ++ toString capacity ++ "%"
    fg := some color
    clicks := [] }

/-- The battery Periodic closure of main.rs (lines 295-336).  A failed
probe returns the empty segment at once, leaving the warned flag alone.
Otherwise, when capacity is at most 10 and not charging, the closure
loads the battery_warned flag with Ordering::Release, shows the critical
notification (unwrapping the result) and stores true with
Ordering::Acquire; in every other case it stores false with
Ordering::Acquire.  Loads and stores with those orderings panic per the
std contract, and a panic anywhere in the poll is the overall value none.
The result carries the produced segment, the flag value after the poll
and the titles of the notifications dispatched. -/
def batteryPoll (env : BatteryEnv) (warned : Bool) :
    Option (Segment × Bool × List String) :=
  match env.onAcPower with
  | none => some (emptySegment, warned, [])
  | some charging =>
    match env.capacity with
    | none => some (emptySegment, warned, [])
    | some capacity =>
      if capacity ≤ 10 ∧ ¬ charging then
        match atomicLoad MemOrd.release warned with
        | none => none
        | some w =>
          if ¬ w then
            if env.notifShowOk then
              match atomicStore MemOrd.acquire true warned with
              | none => none
              | some w2 => some (batterySegment charging capacity, w2, ["Battery level critical"])
            else none
          else some (batterySegment charging capacity, warned, [])
      else
        match atomicStore MemOrd.acquire false warned with
        | none => none
        | some w2 => some (batterySegment charging capacity, w2, [])

/-- Battery environment in which the alert condition has the given truth
value and both probes succeed: not on AC power, capacity 5 percent when
the condition is to hold and 50 percent otherwise. -/
def batteryEnvFor (cond : Bool) : BatteryEnv :=
  if cond then { onAcPower := some false, capacity := some 5, notifShowOk := true }
  else { onAcPower := some false, capacity := some 50, notifShowOk := true }

/-- Runs the battery closure over a sequence of alert-condition values,
threading the warned flag and collecting dispatched notification titles;
none when some poll panics. -/
def batteryRun (conds : List Bool) (warned : Bool) : Option (Bool × List String) :=
  match conds with
  | [] => some (warned, [])
  | c :: rest =>
    match batteryPoll (batteryEnvFor c) warned with
    | none => none
    | some (_, w2, notifs) =>
      match batteryRun rest w2 with
      | none => none
      | some (wEnd, more) => some (wEnd, notifs ++ more)

/-- Observable side effects of the device-switching code: the attempt to
set the default output device, a desktop notification (title and body),
and the attempt to move one output stream (app index) to a device. -/
inductive SinkEff where
  | setDefaultAttempt (name : String)
  | notifyAttempt (title : String) (body : Option String)
  | moveAttempt (idx : Nat) (name : String)
deriving DecidableEq, Repr

/-- Environment of set_device: the result of set_default_device, the
result of list_applications (the indices of the active output streams),
the per-stream result of move_app_by_name, and whether the n-th
Notification::show call of this set_device invocation succeeds. -/
structure SinkEnv where
  setDefault : Except String Bool
  listApps : Except String (List Nat)
  moveApp : Nat → Except String Unit
  notifOk : Nat → Bool

/-- Notification::show with the given outcome; on failure the error is
what the question-mark operator propagates in volume.rs. -/
def showNotif (ok : Bool) : Except String Unit :=
  if ok then Except.ok () else Except.error "notification error"

/-- The stream-reassignment loop of set_device (volume.rs lines 43-52):
for each active stream, attempt move_app_by_name; on a move failure, show
a notification, and a failure of the notification itself is propagated by
the question-mark operator, aborting the rest of the loop.  k counts the
notifications already shown by this set_device call. -/
def moveLoop (env : SinkEnv) (name : String) (apps : List Nat) (k : Nat) :
    List SinkEff × Except String Unit :=
  match apps with
  | [] => ([], Except.ok ())
  | a :: rest =>
    match env.moveApp a with
    | Except.ok _ =>
      let (effs, res) := moveLoop env name rest k
      (SinkEff.moveAttempt a name :: effs, res)
    | Except.error e =>
      match showNotif (env.notifOk k) with
      | Except.ok _ =>
        let (effs, res) := moveLoop env name rest (k + 1)
        (SinkEff.moveAttempt a name
          :: SinkEff.notifyAttempt "Error changing sink for applicaiton" (some e) :: effs, res)
      | Except.error ne =>
        ([SinkEff.moveAttempt a name,
          SinkEff.notifyAttempt "Error changing sink for applicaiton" (some e)],
         Except.error ne)

/-- Second half of set_device: list_applications (its failure is
propagated) followed by the reassignment loop. -/
def setDeviceStreams (env : SinkEnv) (name : String) (k : Nat) :
    List SinkEff × Except String Unit :=
  match env.listApps with
  | Except.error e => ([], Except.error e)
  | Except.ok apps => moveLoop env name apps k

/-- volume.rs set_device (lines 30-54).  First it attempts to set the
default output device: on Ok(false) it shows a notification titled
"Couldn\x27t set new device", on Err(e) one titled "Error setting default
device" with the debug-formatted error as body; a failure of either show
call is propagated by the question-mark operator.  Then it reassigns
every active output stream through the loop above.  The first component
collects the effects in order, the second is the Result of the call. -/
def set_device (env : SinkEnv) (name : String) : List SinkEff × Except String Unit :=
  let start := [SinkEff.setDefaultAttempt name]
  match env.setDefault with
  | Except.ok false =>
    let notif := SinkEff.notifyAttempt "Couldn\x27t set new device" none
    (match showNotif (env.notifOk 0) with
     | Except.ok _ =>
       let (effs, res) := setDeviceStreams env name 1
       (start ++ notif :: effs, res)
     | Except.error ne => (start ++ [notif], Except.error ne))
  | Except.error e =>
    let notif := SinkEff.notifyAttempt "Error setting default device" (some e)
    (match showNotif (env.notifOk 0) with
     | Except.ok _ =>
       let (effs, res) := setDeviceStreams env name 1
       (start ++ notif :: effs, res)
     | Except.error ne => (start ++ [notif], Except.error ne))
  | Except.ok true =>
    let (effs, res) := setDeviceStreams env name 0
    (start ++ effs, res)

/-- Environment of menu: whether SinkController::create succeeds, whether
spawning the zenity process succeeds, the devices fed to its stdin,
whether writing them succeeds, the stdout read back from the process, and
the sink environment used when set_device is invoked. -/
structure MenuEnv where
  controllerOk : Bool
  spawnOk : Bool
  devices : List (String × String)
  writeOk : Bool
  waitOutput : Except String String
  sink : SinkEnv

/-- Model of Rust str::trim: drops leading and trailing whitespace
characters.  Written by structural recursion on the character list so
that it evaluates inside the kernel. -/
def trimString (s : String) : String :=
  let l := s.data.dropWhile Char.isWhitespace
  { data := (l.reverse.dropWhile Char.isWhitespace).reverse }

/-- volume.rs menu (lines 56-89).  It creates the controller, spawns the
zenity list dialogue, writes the device names and descriptions to its
stdin, waits for the process output, trims it, and only when the trimmed
selection is non-empty calls set_device on it; an empty selection returns
Ok(()) with no device-switching effect. -/
def menu (env : MenuEnv) : List SinkEff × Except String Unit :=
  if ¬ env.controllerOk then ([], Except.error "controller create error")
  else if ¬ env.spawnOk then ([], Except.error "spawn error")
  else if ¬ env.writeOk then ([], Except.error "write error")
  else
    match env.waitOutput with
    | Except.error e => ([], Except.error e)
    | Except.ok out =>
      let newDevice := trimString out
      if newDevice = "" then ([], Except.ok ())
      else set_device env.sink newDevice

/-- Modelled from the spec: the Scheduler lives in the unixbar crate and
is not under src.  Discrete-time state of a two-source scheduler: the
current time, the time until which source A is busy with a blocking poll,
and the times at which each source has been polled. -/
structure SchedState where
  now : Nat
  aBusyUntil : Nat
  aPolls : List Nat
  bPolls : List Nat
deriving DecidableEq, Repr

/-- Modelled from the spec: initial scheduler state at time zero. -/
def schedInit : SchedState := { now := 0, aBusyUntil := 0, aPolls := [], bPolls := [] }

/-- Modelled from the spec: one time unit of the unixbar Scheduler, which
is not under src.  Each source has an independently ticking interval
timer; a tick triggers one poll of that source only, no overlapping polls
of one source happen (a source whose previous poll still blocks skips the
tick), and the duration durA of a blocking poll of source A occupies
source A alone — the rule for source B consults nothing but the clock and
its own interval. -/
def schedStep (iA iB : Nat) (durA : Nat → Nat) (s : SchedState) : SchedState :=
  let t := s.now + 1
  { now := t
    aBusyUntil :=
      if t % iA = 0 ∧ s.aBusyUntil ≤ t then t + durA s.aPolls.length else s.aBusyUntil
    aPolls := if t % iA = 0 ∧ s.aBusyUntil ≤ t then s.aPolls ++ [t] else s.aPolls
    bPolls := if t % iB = 0 then s.bPolls ++ [t] else s.bPolls }

/-- Modelled from the spec: the scheduler observed for n time units. -/
def schedRun (iA iB : Nat) (durA : Nat → Nat) : Nat → SchedState
  | 0 => schedInit
  | n + 1 => schedStep iA iB durA (schedRun iA iB durA n)

/-- The clock and the polls of source B are invariant under the durations
of the polls of source A. -/
theorem schedRun_bPolls_independent (iA iB : Nat) (dA dA' : Nat → Nat) :
    ∀ n : Nat, (schedRun iA iB dA n).now = (schedRun iA iB dA' n).now ∧
      (schedRun iA iB dA n).bPolls = (schedRun iA iB dA' n).bPolls := by
  intro n
  induction n with
  | zero => exact ⟨rfl, rfl⟩
  | succ n ih => simp [schedRun, schedStep, ih.1, ih.2]

/-- Every stream in the reassignment loop gets a move attempt when every
notification show call succeeds, whatever the per-stream move results. -/
theorem moveLoop_attempts_all (env : SinkEnv) (name : String)
    (hnotif : ∀ k, env.notifOk k = true) :
    ∀ (apps : List Nat) (k : Nat), ∀ a ∈ apps,
      SinkEff.moveAttempt a name ∈ (moveLoop env name apps k).1 := by
  intro apps
  induction apps with
  | nil => intro k a ha; cases ha
  | cons b rest ih =>
    intro k a ha
    rcases List.mem_cons.mp ha with h | h
    · subst h
      cases hmv : env.moveApp a with
      | ok u => simp [moveLoop, hmv]
      | error e => simp [moveLoop, hmv, showNotif, hnotif k]
    · cases hmv : env.moveApp b with
      | ok u => simp [moveLoop, hmv, ih k a h]
      | error e => simp [moveLoop, hmv, showNotif, hnotif k, ih (k + 1) a h]

/-- C1 counterexample: at the concrete error input with message "boom"
and kind other, the Backlight closure renders text "ERROR: boom", not the
error message itself, and the NotFound kind renders a different segment
than the other kinds, refuting the claimed kind-independent rendering. -/
theorem backlight_error_rendering_counterexample :
    (backlightWidget (fun _ => "") (Except.error { kind := IoKind.other, message := "boom" })).text
      ≠ "boom" ∧
    backlightWidget (fun _ => "") (Except.error { kind := IoKind.notFound, message := "boom" })
      ≠ backlightWidget (fun _ => "") (Except.error { kind := IoKind.other, message := "boom" }) := by
  constructor
  · decide
  · decide

/-- C1 amended: the wrappers never propagate an error, but failure
rendering is per kind and never uses an error color: the Backlight
closure maps a NotFound error to the empty segment and any other error to
a segment with text "ERROR: " followed by the message, no foreground
color and no click bindings, while the ibus closure maps any command
failure to the empty segment. -/
theorem fault_containment_amended :
    (∀ (render : Float → String) (msg : String),
        backlightWidget render (Except.error { kind := IoKind.notFound, message := msg })
          = emptySegment) ∧
    (∀ (render : Float → String) (msg : String),
        backlightWidget render (Except.error { kind := IoKind.other, message := msg })
          = { text := "ERROR: " ++ msg, fg := none, clicks := [] }) ∧
    ibusWidget none = emptySegment := by
  exact ⟨fun _ _ => rfl, fun _ _ => rfl, rfl⟩

/-- C2: on the code as written the condition sequence [true, true, false,
true] dispatches no alert at all: the very first poll with the condition
true panics at the load of the warned flag with Ordering::Release, before
the notification is shown, so the whole run aborts instead of dispatching
twice. -/
theorem battery_alert_sequence_panics :
    batteryPoll (batteryEnvFor true) false = none ∧
    batteryRun [true, true, false, true] false = none :=
  ⟨rfl, rfl⟩

/-- C3: with playback range [0, 65536] and current volume 32768, add 5
followed by add (-5) restores 32768, and add 100 at the maximum leaves
the volume at the maximum, the computed value being clamped to the range
before writing. -/
theorem volume_add_round_trip_and_clamp :
    add 0 65536 (add 0 65536 32768 5) (-5) = 32768 ∧
    add 0 65536 65536 100 = 65536 := by
  constructor
  · unfold add roundAwayFromZero
    norm_num [Int.ceil_neg]
  · unfold add roundAwayFromZero
    norm_num

/-- Sink environment with two active streams in which every move fails
and the notification sink fails. -/
def envC4 : SinkEnv :=
  { setDefault := Except.ok true
    listApps := Except.ok [0, 1]
    moveApp := fun _ => Except.error "move error"
    notifOk := fun _ => false }

/-- C4 counterexample: when the per-failure notification itself fails,
set_device returns that error and the second stream never gets a
reassignment attempt — the notification sink failure is escalated. -/
theorem notification_failure_escalates_counterexample :
    (set_device envC4 "dev").2 = Except.error "notification error" ∧
    SinkEff.moveAttempt 1 "dev" ∉ (set_device envC4 "dev").1 := by
  constructor
  · rfl
  · decide

/-- C4 amended: a failure of the desktop notification sink is escalated:
in set_device, when the first stream reassignment fails and the
notification about it cannot be shown, the call returns the notification
error and the remaining streams get no reassignment attempt.  In the
battery closure the show result is unwrapped, so a failure there would
panic the poll, which already panics earlier on its atomic orderings. -/
theorem notification_failure_escalates (env : SinkEnv) (name : String) (a : Nat)
    (rest : List Nat) (e : String)
    (hset : env.setDefault = Except.ok true)
    (happs : env.listApps = Except.ok (a :: rest))
    (hmove : env.moveApp a = Except.error e)
    (hnotif : env.notifOk 0 = false) :
    set_device env name =
      ([SinkEff.setDefaultAttempt name, SinkEff.moveAttempt a name,
        SinkEff.notifyAttempt "Error changing sink for applicaiton" (some e)],
       Except.error "notification error") := by
  simp [set_device, setDeviceStreams, moveLoop, showNotif, hset, happs, hmove, hnotif]

/-- C4 witness: the amended theorem applied at a concrete environment. -/
theorem notification_failure_escalates_witness :
    set_device envC4 "dev" =
      ([SinkEff.setDefaultAttempt "dev", SinkEff.moveAttempt 0 "dev",
        SinkEff.notifyAttempt "Error changing sink for applicaiton" (some "move error")],
       Except.error "notification error") :=
  notification_failure_escalates envC4 "dev" 0 [1] "move error" rfl rfl rfl rfl

/-- C5: over 4 time units, source A with interval 1 is polled 4 times and
source B with interval 2 is polled twice; when every poll of A blocks for
a very long time, A is polled once and the polls of B are unchanged; and
in general the polls of B are independent of the durations of the polls
of A. -/
theorem scheduler_counts_and_independence :
    (schedRun 1 2 (fun _ => 0) 4).aPolls = [1, 2, 3, 4] ∧
    (schedRun 1 2 (fun _ => 0) 4).bPolls = [2, 4] ∧
    (schedRun 1 2 (fun _ => 1000000) 4).aPolls = [1] ∧
    (schedRun 1 2 (fun _ => 1000000) 4).bPolls = [2, 4] ∧
    ∀ (dA dA' : Nat → Nat) (n : Nat),
      (schedRun 1 2 dA n).bPolls = (schedRun 1 2 dA' n).bPolls := by
  refine ⟨by decide, by decide, by decide, by decide, ?_⟩
  intro dA dA' n
  exact (schedRun_bPolls_independent 1 2 dA dA' n).2

/-- C6: when the notification sink works, set_device attempts to reassign
every currently active stream, whatever the per-stream move results: a
move failure is notified and the loop continues with the rest. -/
theorem set_device_attempts_all_streams (env : SinkEnv) (name : String) (apps : List Nat)
    (hnotif : ∀ k, env.notifOk k = true)
    (happs : env.listApps = Except.ok apps) :
    ∀ a ∈ apps, SinkEff.moveAttempt a name ∈ (set_device env name).1 := by
  intro a ha
  have key : ∀ k, SinkEff.moveAttempt a name ∈ (moveLoop env name apps k).1 :=
    fun k => moveLoop_attempts_all env name hnotif apps k a ha
  cases hsd : env.setDefault with
  | ok b =>
    cases b with
    | true => simp [set_device, setDeviceStreams, hsd, happs, key 0]
    | false => simp [set_device, setDeviceStreams, showNotif, hnotif 0, hsd, happs, key 1]
  | error e =>
    simp [set_device, setDeviceStreams, showNotif, hnotif 0, hsd, happs, key 1]

/-- Sink environment with two active streams in which the move of the
first stream fails and the notification sink works. -/
def envC6 : SinkEnv :=
  { setDefault := Except.ok true
    listApps := Except.ok [0, 1]
    moveApp := fun i => if i = 0 then Except.error "move error" else Except.ok ()
    notifOk := fun _ => true }

/-- C6 witness: the second stream is attempted even though the first
move failed. -/
theorem set_device_attempts_all_streams_witness :
    SinkEff.moveAttempt 1 "dev" ∈ (set_device envC6 "dev").1 :=
  set_device_attempts_all_streams envC6 "dev" [0, 1] (fun _ => rfl) rfl 1 (by decide)

/-- C7: on the boolean values the ALSA playback switch takes, applying
the mute toggle twice is the identity on the switch state. -/
theorem mute_toggle_involutive (s : ℤ) (h : s = 0 ∨ s = 1) : mute (mute s) = s := by
  rcases h with h | h <;> subst h <;> decide

/-- C7 witness: the toggle theorem at the concrete switch values 0 and
1. -/
theorem mute_toggle_involutive_witness : mute (mute 0) = 0 ∧ mute (mute 1) = 1 :=
  ⟨mute_toggle_involutive 0 (Or.inl rfl), mute_toggle_involutive 1 (Or.inr rfl)⟩

/-- C8: when the picker process runs and its output trims to the empty
string, menu returns Ok with no device-switching effect at all: no
default-device attempt, no notification, no stream reassignment. -/
theorem menu_empty_selection_no_switch (env : MenuEnv) (out : String)
    (hctl : env.controllerOk = true) (hspawn : env.spawnOk = true)
    (hwrite : env.writeOk = true) (hwait : env.waitOutput = Except.ok out)
    (hempty : trimString out = "") :
    menu env = ([], Except.ok ()) := by
  simp [menu, hctl, hspawn, hwrite, hwait, hempty]

/-- C8 witness: a concrete whitespace-only selection. -/
theorem menu_empty_selection_no_switch_witness :
    menu { controllerOk := true, spawnOk := true, devices := [("id0", "Speakers")],
           writeOk := true, waitOutput := Except.ok " \n", sink := envC6 }
      = ([], Except.ok ()) :=
  menu_empty_selection_no_switch _ " \n" rfl rfl rfl rfl (by decide)

/-- C9: the battery closure passes Ordering::Release to the load of the
warned flag and Ordering::Acquire to both stores; per the documented std
contract those calls panic, so every poll in which both probes succeed
faults instead of completing: with the condition false the store panics,
and with the condition true from the Warned state the load panics. -/
theorem battery_atomic_orderings_panic :
    batteryPoll { onAcPower := some true, capacity := some 50, notifShowOk := true } false
      = none ∧
    batteryPoll { onAcPower := some false, capacity := some 7, notifShowOk := true } true
      = none :=
  ⟨rfl, rfl⟩

/-- C10: when either battery probe fails, the poll returns the empty
segment, dispatches nothing and leaves the warned flag unchanged. -/
theorem battery_probe_failure_keeps_state (env : BatteryEnv) (warned : Bool)
    (h : env.onAcPower = none ∨ env.capacity = none) :
    batteryPoll env warned = some (emptySegment, warned, []) := by
  rcases env with ⟨oa, cap, nk⟩
  dsimp only at h
  rcases h with h | h
  · subst h; rfl
  · subst h
    cases oa with
    | none => rfl
    | some c => rfl

/-- C10 witness: a failed AC-power probe with the flag already set leaves
the Warned state in place and renders the empty segment. -/
theorem battery_probe_failure_keeps_state_witness :
    batteryPoll { onAcPower := none, capacity := some 50, notifShowOk := true } true
      = some (emptySegment, true, []) :=
  battery_probe_failure_keeps_state _ true (Or.inl rfl)
